import Mathlib

/-!
Verification of the tool-calling engine in
`src/node_modules/@runanywhere/core/src/Public/Extensions/RunAnywhere+ToolCalling.ts`.

The TypeScript module is shallowly embedded: external collaborators (the
native C++ bridge, `JSON.parse`/`JSON.stringify`, `Date.now`, and the
text-generation service `generateStream`) are modelled as oracle fields of an
environment record, while all control flow of the TypeScript functions
(`parseToolCallViaCpp`, `executeTool`, `formatToolsForPrompt`,
`formatToolsForPromptAsync`, `buildInitialPromptViaCpp`,
`buildFollowupPromptViaCpp`, `generateWithTools`, `continueWithToolResult`)
is translated faithfully.  A JavaScript `throw` caught by a `try`/`catch` is
modelled by `Except`; JavaScript string falsiness (`s || d`) is modelled by
`jsOr`.  The orchestration loop `while (iterations < maxToolCalls)` is
translated as structural recursion on the remaining fuel
`maxToolCalls.toNat`, and the run is instrumented with a ghost trace (number
of generation calls, number of `executeTool` invocations, per-round prompts,
raw responses and parsed texts) so that the observable behaviour of one run
can be stated.
-/

namespace RunAnywhere
namespace ToolCalling

/-- Argument maps `Record<string, unknown>`: keys paired with opaque
(serialized) values. -/
abbrev Args := List (String × String)

/-- `ToolParameter` from `ToolCallingTypes.ts`. -/
structure ToolParameter where
  name : String
  type : String
  description : String
  required : Bool
  enum : Option (List String) := none
deriving DecidableEq, Repr

/-- `ToolDefinition` from `ToolCallingTypes.ts`. -/
structure ToolDefinition where
  name : String
  description : String
  parameters : List ToolParameter
  category : Option String := none
deriving DecidableEq, Repr

/-- `ToolCall` from `ToolCallingTypes.ts` (the `callId` is always set by the
parser, so it is modelled as a plain string). -/
structure ToolCall where
  toolName : String
  arguments : Args
  callId : String
deriving DecidableEq, Repr

/-- `ToolResult` from `ToolCallingTypes.ts`; the `result` payload is kept as
an opaque serialized value. -/
structure ToolResult where
  toolName : String
  success : Bool
  result : Option String := none
  error : Option String := none
  callId : String
deriving DecidableEq, Repr

/-- `ToolExecutor`: an executor either returns a payload or throws an error
message (`Except.error` models the JavaScript `throw`). -/
abbrev ToolExecutor := Args → Except String String

/-- `RegisteredTool` from `ToolCallingTypes.ts`. -/
structure RegisteredTool where
  definition : ToolDefinition
  executor : ToolExecutor

/-- `ToolCallingOptions` from `ToolCallingTypes.ts`; every field is optional
exactly as in the interface.  `maxToolCalls` is a JavaScript number used in
integer positions, hence `Int`. -/
structure ToolCallingOptions where
  tools : Option (List ToolDefinition) := none
  maxToolCalls : Option Int := none
  autoExecute : Option Bool := none
  temperature : Option Int := none
  maxTokens : Option Int := none
  systemPrompt : Option String := none
  replaceSystemPrompt : Option Bool := none
  keepToolsAvailable : Option Bool := none
  format : Option String := none

/-- `ToolCallingResult` from `ToolCallingTypes.ts` (the optional
`conversationId` is never set by the module and is omitted). -/
structure ToolCallingResult where
  text : String
  toolCalls : List ToolCall
  toolResults : List ToolResult
  isComplete : Bool
deriving DecidableEq, Repr

/-- The decoded value of the native parser result JSON, i.e. the fields that
`parseToolCallViaCpp` reads from `JSON.parse(resultJson)`.  The
`argumentsJson` field can be a JSON string or an already-decoded object
(`typeof result.argumentsJson === 'string'` test in the source); `none`
models `null`/`undefined`.  Absent string fields are modelled as `""`, which
coincides with JavaScript falsiness. -/
inductive ArgsJson where
  | str (s : String)
  | obj (a : Args)
deriving DecidableEq, Repr

/-- Fields of the native parse result object read by `parseToolCallViaCpp`. -/
structure NativeParsePayload where
  hasToolCall : Bool
  cleanText : String := ""
  toolName : String := ""
  argumentsJson : Option ArgsJson := none
  callId : String := ""
deriving DecidableEq, Repr

/-- The external collaborators of the module, as oracles:
`isNativeModuleAvailable()`, the native bridge functions (each may throw,
hence `Except`), the JSON library, and `Date.now()`.  These are the pieces
that live outside `RunAnywhere+ToolCalling.ts`. -/
structure NativeEnv where
  /-- `isNativeModuleAvailable()` -/
  available : Bool
  /-- `native.parseToolCallFromOutput` -/
  parseToolCallFromOutput : String → Except String String
  /-- `JSON.parse(resultJson)` followed by the field reads of
  `parseToolCallViaCpp`; an `Except.error` models a `JSON.parse` throw. -/
  decodeParsePayload : String → Except String NativeParsePayload
  /-- `JSON.parse(result.argumentsJson)` when `argumentsJson` is a string. -/
  jsonParseArgs : String → Except String Args
  /-- `native.formatToolsForPrompt(toolsJson, toolFormat)` -/
  formatTools : String → String → Except String String
  /-- `native.buildInitialPrompt(userPrompt, toolsJson, optionsJson)` -/
  buildInitialPrompt : String → String → String → Except String String
  /-- `native.buildFollowupPrompt(originalPrompt, toolsPrompt, toolName,
  resultJson, keepToolsAvailable)` -/
  buildFollowupPrompt : String → String → String → String → Bool → Except String String
  /-- `JSON.stringify(tools.map(...))`: serialization of a tool list. -/
  stringifyTools : List ToolDefinition → String
  /-- `JSON.stringify` of the defaults-resolved options object built at
  `buildInitialPromptViaCpp`. -/
  stringifyOptions : ToolCallingOptions → String
  /-- `JSON.stringify(result.result)`: serialization of a success payload. -/
  stringifyVal : Option String → String
  /-- `JSON.stringify(\x7b error: result.error \x7d)`: serialization of the
  error object built for a failed result. -/
  stringifyErrorObj : Option String → String
  /-- `Date.now()` rendered into a template string. -/
  nowId : String

/-- JavaScript `s || d` on strings: the empty string is falsy. -/
def jsOr (s d : String) : String :=
  if s = "" then d else s

/-- A JavaScript template splice of a possibly-undefined string. -/
def jsTemplate : Option String → String
  | some s => s
  | none => "undefined"

/-- Result shape of `parseToolCallViaCpp`. -/
structure ParseOut where
  text : String
  toolCall : Option ToolCall
deriving DecidableEq, Repr

/-- The `argumentsJson` handling of `parseToolCallViaCpp` (lines 103-108):
`args` defaults to the empty object, a truthy string is `JSON.parse`d (which
may throw), and an object is used as-is. -/
def parseToolCallArgs (env : NativeEnv) (p : NativeParsePayload) : Except String Args :=
  match p.argumentsJson with
  | none => Except.ok []
  | some (ArgsJson.str s) => if s = "" then Except.ok [] else env.jsonParseArgs s
  | some (ArgsJson.obj a) => Except.ok a

/-- `parseToolCallViaCpp` (lines 84-121).  Every `Except.error` of an oracle
is a thrown exception landing in the `catch` block, which returns the raw
output with no call; the function itself is total, modelling that no
exception ever escapes to the caller. -/
def parseToolCallViaCpp (env : NativeEnv) (llmOutput : String) : ParseOut :=
  if env.available = false then
    { text := llmOutput, toolCall := none }
  else
    match env.parseToolCallFromOutput llmOutput with
    | Except.error _ => { text := llmOutput, toolCall := none }
    | Except.ok resultJson =>
      match env.decodeParsePayload resultJson with
      | Except.error _ => { text := llmOutput, toolCall := none }
      | Except.ok payload =>
        if payload.hasToolCall = false then
          { text := jsOr payload.cleanText llmOutput, toolCall := none }
        else
          match parseToolCallArgs env payload with
          | Except.error _ => { text := llmOutput, toolCall := none }
          | Except.ok args =>
            { text := payload.cleanText
              toolCall := some
                { toolName := payload.toolName
                  arguments := args
                  callId := "call_" ++ jsOr payload.callId env.nowId } }

/-- `registeredTools.get(name)` on the registry contents. -/
def findTool (registry : List RegisteredTool) (name : String) : Option RegisteredTool :=
  registry.find? (fun t => t.definition.name = name)

/-- `getRegisteredTools()` (lines 65-67). -/
def getRegisteredTools (registry : List RegisteredTool) : List ToolDefinition :=
  registry.map (fun t => t.definition)

/-- `executeTool` (lines 212-245): unknown names yield a failed result
without touching any executor; a throwing executor is caught and converted
into a failed result carrying its message. -/
def executeTool (registry : List RegisteredTool) (toolCall : ToolCall) : ToolResult :=
  match findTool registry toolCall.toolName with
  | none =>
    { toolName := toolCall.toolName
      success := false
      error := some ("Unknown tool: " ++ toolCall.toolName)
      callId := toolCall.callId }
  | some tool =>
    match tool.executor toolCall.arguments with
    | Except.ok result =>
      { toolName := toolCall.toolName
        success := true
        result := some result
        callId := toolCall.callId }
    | Except.error errorMessage =>
      { toolName := toolCall.toolName
        success := false
        error := some errorMessage
        callId := toolCall.callId }

/-- `formatToolsForPrompt` (lines 133-160): the synchronous version returns
the raw tools JSON after the empty-list guard. -/
def formatToolsForPrompt (env : NativeEnv) (registry : List RegisteredTool)
    (tools : Option (List ToolDefinition)) (format : Option String) : String :=
  let toolsToFormat := tools.getD (getRegisteredTools registry)
  let _toolFormat := jsOr ((format.getD "").toLower) "default"
  if toolsToFormat.length = 0 then ""
  else env.stringifyTools toolsToFormat

/-- `formatToolsForPromptAsync` (lines 169-202): after the empty-list guard,
falls back to raw tools JSON when the native bridge is unavailable or
throws. -/
def formatToolsForPromptAsync (env : NativeEnv) (registry : List RegisteredTool)
    (tools : Option (List ToolDefinition)) (format : Option String) : String :=
  let toolsToFormat := tools.getD (getRegisteredTools registry)
  let toolFormat := jsOr ((format.getD "").toLower) "default"
  if toolsToFormat.length = 0 then ""
  else
    let toolsJson := env.stringifyTools toolsToFormat
    if env.available = false then toolsJson
    else
      match env.formatTools toolsJson toolFormat with
      | Except.ok s => s
      | Except.error _ => toolsJson

/-- `buildInitialPromptViaCpp` (lines 259-286). -/
def buildInitialPromptViaCpp (env : NativeEnv) (userPrompt toolsJson : String)
    (options : ToolCallingOptions) : String :=
  if env.available = false then
    toolsJson ++ "\n\nUser: " ++ userPrompt
  else
    let optionsJson := env.stringifyOptions options
    match env.buildInitialPrompt userPrompt toolsJson optionsJson with
    | Except.ok s => s
    | Except.error _ => toolsJson ++ "\n\nUser: " ++ userPrompt

/-- `buildFollowupPromptViaCpp` (lines 292-320). -/
def buildFollowupPromptViaCpp (env : NativeEnv)
    (originalPrompt toolsPrompt toolName resultJson : String)
    (keepToolsAvailable : Bool) : String :=
  if env.available = false then
    if keepToolsAvailable then
      toolsPrompt ++ "\n\nUser: " ++ originalPrompt ++ "\n\nTool " ++ toolName ++
        " returned: " ++ resultJson
    else
      "The user asked: \"" ++ originalPrompt ++ "\"\n\nYou used " ++ toolName ++
        " and got: " ++ resultJson ++ "\n\nRespond naturally."
  else
    match env.buildFollowupPrompt originalPrompt toolsPrompt toolName resultJson
        keepToolsAvailable with
    | Except.ok s => s
    | Except.error _ =>
      "The user asked: \"" ++ originalPrompt ++ "\"\n\nYou used " ++ toolName ++
        " and got: " ++ resultJson

/-- The full run environment of `generateWithTools`: the native bridge, the
text-generation collaborator (`generateStream` + stream accumulation, lines
379-387, as the complete text produced at the i-th generation round for a
given prompt), and the contents of the module-level `registeredTools`
map. -/
structure Env where
  native : NativeEnv
  /-- Generation round number (1-based) and prompt to the fully accumulated
  response text. -/
  gen : Nat → String → String
  registry : List RegisteredTool

/-- Mutable state of the orchestration loop (lines 369-372 plus the ghost
trace fields). -/
structure LoopState where
  fullPrompt : String
  toolCalls : List ToolCall
  toolResults : List ToolResult
  finalText : String
  /-- the `iterations` counter, equal to the number of generation calls made -/
  iterations : Nat
  /-- ghost: number of `executeTool` invocations -/
  execCalls : Nat
  /-- ghost: prompt sent to generation at each round, in order -/
  prompts : List String
  /-- ghost: raw response text of each round, in order -/
  responses : List String
  /-- ghost: parsed clean text of each round, in order -/
  texts : List String

/-- Observable outcome of one `generateWithTools` run: the returned
`ToolCallingResult` plus the ghost trace. -/
structure RunOutcome where
  result : ToolCallingResult
  genCalls : Nat
  execCalls : Nat
  prompts : List String
  responses : List String
  texts : List String
deriving DecidableEq, Repr

/-- Package a terminal loop state into the returned outcome (lines
442-447). -/
def finishRun (st : LoopState) (result : ToolCallingResult) : RunOutcome :=
  { result := result
    genCalls := st.iterations
    execCalls := st.execCalls
    prompts := st.prompts
    responses := st.responses
    texts := st.texts }

/-- The raw response of the next loop round: `generateStream` on the current
prompt, fully accumulated (lines 379-387). -/
def roundResponse (env : Env) (st : LoopState) : String :=
  env.gen (st.iterations + 1) st.fullPrompt

/-- The parse of the next loop round (line 392). -/
def roundParse (env : Env) (st : LoopState) : ParseOut :=
  parseToolCallViaCpp env.native (roundResponse env st)

/-- State update shared by every path of a loop round (lines 375-394):
increment `iterations`, record the round in the ghost trace, set
`finalText` to the parsed clean text. -/
def advance (env : Env) (st : LoopState) : LoopState :=
  { st with
    iterations := st.iterations + 1
    prompts := st.prompts ++ [st.fullPrompt]
    responses := st.responses ++ [roundResponse env st]
    texts := st.texts ++ [(roundParse env st).text]
    finalText := (roundParse env st).text }

/-- `allToolCalls.push(toolCall)` (line 403). -/
def pushCall (st : LoopState) (toolCall : ToolCall) : LoopState :=
  { st with toolCalls := st.toolCalls ++ [toolCall] }

/-- The auto-execute tail of a loop round (lines 415-436): run
`executeTool`, record the result, and build the follow-up prompt that
becomes the next round's `fullPrompt`. -/
def execStep (env : Env) (keepToolsAvailable : Bool) (prompt toolsPrompt : String)
    (st : LoopState) (toolCall : ToolCall) : LoopState :=
  let result := executeTool env.registry toolCall
  let resultData :=
    if result.success then env.native.stringifyVal result.result
    else env.native.stringifyErrorObj result.error
  let nextPrompt := buildFollowupPromptViaCpp env.native prompt toolsPrompt
    toolCall.toolName resultData keepToolsAvailable
  { st with
    toolResults := st.toolResults ++ [result]
    execCalls := st.execCalls + 1
    fullPrompt := nextPrompt }

/-- The `while (iterations < maxToolCalls)` loop of `generateWithTools`
(lines 374-448), as structural recursion on the remaining fuel
`maxToolCalls - iterations`.  Each round: generate, parse via C++, update
`finalText`; `break` on no call (lines 396-399); with `autoExecute` false
return the surfaced call with `isComplete := false` (lines 405-413);
otherwise execute the tool, build the follow-up prompt and continue (lines
415-436). -/
def generateLoop (env : Env) (autoExecute keepToolsAvailable : Bool)
    (prompt toolsPrompt : String) : Nat → LoopState → RunOutcome
  | 0, st =>
    finishRun st
      { text := st.finalText
        toolCalls := st.toolCalls
        toolResults := st.toolResults
        isComplete := true }
  | fuel + 1, st =>
    let st1 := advance env st
    match (roundParse env st).toolCall with
    | none =>
      finishRun st1
        { text := st1.finalText
          toolCalls := st1.toolCalls
          toolResults := st1.toolResults
          isComplete := true }
    | some toolCall =>
      let st2 := pushCall st1 toolCall
      if autoExecute = false then
        finishRun st2
          { text := st2.finalText
            toolCalls := st2.toolCalls
            toolResults := []
            isComplete := false }
      else
        generateLoop env autoExecute keepToolsAvailable prompt toolsPrompt fuel
          (execStep env keepToolsAvailable prompt toolsPrompt st2 toolCall)

/-- The initial `fullPrompt` of `generateWithTools` (lines 339-362): tools
are resolved from the options or the registry, serialized to JSON, and
handed to `buildInitialPromptViaCpp`. -/
def initialFullPrompt (env : Env) (prompt : String) (options : ToolCallingOptions) : String :=
  let tools := options.tools.getD (getRegisteredTools env.registry)
  buildInitialPromptViaCpp env.native prompt (env.native.stringifyTools tools) options

/-- The `toolsPrompt` of `generateWithTools` (lines 364-367): formatted only
when `keepToolsAvailable` is set. -/
def toolsPromptOf (env : Env) (options : ToolCallingOptions) : String :=
  let tools := options.tools.getD (getRegisteredTools env.registry)
  let format := jsOr (options.format.getD "") "default"
  if options.keepToolsAvailable.getD false then
    formatToolsForPromptAsync env.native env.registry (some tools) (some format)
  else ""

/-- The loop state on entry to the first round (lines 369-372): empty
accumulators, empty `finalText`, zero iterations, the initial prompt. -/
def initState (env : Env) (prompt : String) (options : ToolCallingOptions) : LoopState :=
  { fullPrompt := initialFullPrompt env prompt options
    toolCalls := []
    toolResults := []
    finalText := ""
    iterations := 0
    execCalls := 0
    prompts := []
    responses := []
    texts := [] }

/-- `generateWithTools` (lines 335-448), instrumented with the ghost
trace. -/
def generateWithTools (env : Env) (prompt : String)
    (options : ToolCallingOptions) : RunOutcome :=
  generateLoop env (options.autoExecute.getD true) (options.keepToolsAvailable.getD false)
    prompt (toolsPromptOf env options) (options.maxToolCalls.getD 5).toNat
    (initState env prompt options)

/-- `continueWithToolResult` (lines 453-469): builds the continuation prompt
and restarts `generateWithTools` with `maxToolCalls` decremented from the
caller-supplied (or default 5) value. -/
def continueWithToolResult (env : Env) (previousPrompt : String)
    (toolCall : ToolCall) (toolResult : ToolResult)
    (options : ToolCallingOptions) : RunOutcome :=
  let resultJson :=
    if toolResult.success then env.native.stringifyVal toolResult.result
    else "Error: " ++ jsTemplate toolResult.error
  let continuedPrompt := previousPrompt ++ "\n\nTool Result for " ++ toolCall.toolName ++
    ": " ++ resultJson ++ "\n\nBased on the tool result, please provide your response:"
  generateWithTools env continuedPrompt
    { options with maxToolCalls := some (options.maxToolCalls.getD 5 - 1) }

/-! ### Concrete environments for witnesses and counterexamples -/

/-- A native bridge whose parser finds a well-formed `get_weather` tool call
in every model output. -/
def callNative : NativeEnv :=
  { available := true
    parseToolCallFromOutput := fun s => Except.ok s
    decodeParsePayload := fun _ =>
      Except.ok
        { hasToolCall := true
          cleanText := ""
          toolName := "get_weather"
          argumentsJson := some (ArgsJson.obj [("location", "SF")])
          callId := "1" }
    jsonParseArgs := fun _ => Except.ok []
    formatTools := fun toolsJson _ => Except.ok toolsJson
    buildInitialPrompt := fun userPrompt toolsJson _ => Except.ok (toolsJson ++ userPrompt)
    buildFollowupPrompt := fun originalPrompt _ toolName resultJson _ =>
      Except.ok (originalPrompt ++ toolName ++ resultJson)
    stringifyTools := fun _ => "[]"
    stringifyOptions := fun _ => "o"
    stringifyVal := jsTemplate
    stringifyErrorObj := jsTemplate
    nowId := "0" }

/-- A native bridge that is unavailable, so the parser never finds a call
and every prompt builder takes its fallback branch. -/
def offlineNative : NativeEnv :=
  { callNative with available := false }

/-- The tool call produced by `callNative` at every round. -/
def weatherCall : ToolCall :=
  { toolName := "get_weather", arguments := [("location", "SF")], callId := "call_1" }

/-- Environment whose model always requests `get_weather` but whose registry
is empty. -/
def envCall : Env :=
  { native := callNative
    gen := fun _ _ => "<tool_call>w</tool_call>"
    registry := [] }

/-- Environment whose model never produces a parseable call. -/
def envNoCall : Env :=
  { native := offlineNative
    gen := fun _ _ => "hello"
    registry := [] }

/-- A registered `get_weather` tool whose executor always throws. -/
def throwingWeatherTool : RegisteredTool :=
  { definition :=
      { name := "get_weather"
        description := "Get the weather"
        parameters := [] }
    executor := fun _ => Except.error "boom" }

/-- Environment whose model always requests `get_weather` and whose registry
holds a throwing `get_weather` executor. -/
def envThrow : Env :=
  { envCall with registry := [throwingWeatherTool] }

/-! ### Unfolding lemmas for the orchestration loop -/

theorem generateLoop_zero (env : Env) (a k : Bool) (p tp : String) (st : LoopState) :
    generateLoop env a k p tp 0 st =
      finishRun st
        { text := st.finalText
          toolCalls := st.toolCalls
          toolResults := st.toolResults
          isComplete := true } := rfl

theorem generateLoop_succ_none {env : Env} {a k : Bool} {p tp : String}
    {fuel : Nat} {st : LoopState} (h : (roundParse env st).toolCall = none) :
    generateLoop env a k p tp (fuel + 1) st =
      finishRun (advance env st)
        { text := (advance env st).finalText
          toolCalls := (advance env st).toolCalls
          toolResults := (advance env st).toolResults
          isComplete := true } := by
  simp only [generateLoop]
  rw [h]

theorem generateLoop_succ_manual {env : Env} {k : Bool} {p tp : String}
    {fuel : Nat} {st : LoopState} {tc : ToolCall}
    (h : (roundParse env st).toolCall = some tc) :
    generateLoop env false k p tp (fuel + 1) st =
      finishRun (pushCall (advance env st) tc)
        { text := (advance env st).finalText
          toolCalls := (pushCall (advance env st) tc).toolCalls
          toolResults := []
          isComplete := false } := by
  simp only [generateLoop]
  rw [h]
  simp [pushCall]

theorem generateLoop_succ_auto {env : Env} {k : Bool} {p tp : String}
    {fuel : Nat} {st : LoopState} {tc : ToolCall}
    (h : (roundParse env st).toolCall = some tc) :
    generateLoop env true k p tp (fuel + 1) st =
      generateLoop env true k p tp fuel
        (execStep env k p tp (pushCall (advance env st) tc) tc) := by
  simp only [generateLoop]
  rw [h]
  simp

/-! ### Trace lemmas about the loop -/

theorem generateLoop_genCalls_ge (env : Env) (a k : Bool) (p tp : String) :
    ∀ fuel st, st.iterations ≤ (generateLoop env a k p tp fuel st).genCalls := by
  intro fuel
  induction fuel with
  | zero =>
    intro st
    simp [generateLoop_zero, finishRun]
  | succ n ih =>
    intro st
    rcases h : (roundParse env st).toolCall with _ | tc
    · rw [generateLoop_succ_none h]
      simp [finishRun, advance]
    · cases a with
      | false =>
        rw [generateLoop_succ_manual h]
        simp [finishRun, advance, pushCall]
      | true =>
        rw [generateLoop_succ_auto h]
        have hrec := ih (execStep env k p tp (pushCall (advance env st) tc) tc)
        have hiter : (execStep env k p tp (pushCall (advance env st) tc) tc).iterations =
            st.iterations + 1 := rfl
        rw [hiter] at hrec
        omega

theorem generateLoop_genCalls_ge_one (env : Env) (a k : Bool) (p tp : String)
    (fuel : Nat) (st : LoopState) :
    st.iterations + 1 ≤ (generateLoop env a k p tp (fuel + 1) st).genCalls := by
  rcases h : (roundParse env st).toolCall with _ | tc
  · rw [generateLoop_succ_none h]
    simp [finishRun, advance]
  · cases a with
    | false =>
      rw [generateLoop_succ_manual h]
      simp [finishRun, advance, pushCall]
    | true =>
      rw [generateLoop_succ_auto h]
      have hrec := generateLoop_genCalls_ge env true k p tp fuel
        (execStep env k p tp (pushCall (advance env st) tc) tc)
      have hiter : (execStep env k p tp (pushCall (advance env st) tc) tc).iterations =
          st.iterations + 1 := rfl
      rw [hiter] at hrec
      omega

theorem generateLoop_responses_prefix (env : Env) (a k : Bool) (p tp : String) :
    ∀ fuel st, ∃ l, (generateLoop env a k p tp fuel st).responses = st.responses ++ l := by
  intro fuel
  induction fuel with
  | zero =>
    intro st
    exact ⟨[], by simp [generateLoop_zero, finishRun]⟩
  | succ n ih =>
    intro st
    rcases h : (roundParse env st).toolCall with _ | tc
    · exact ⟨[roundResponse env st], by rw [generateLoop_succ_none h]; simp [finishRun, advance]⟩
    · cases a with
      | false =>
        exact ⟨[roundResponse env st],
          by rw [generateLoop_succ_manual h]; simp [finishRun, advance, pushCall]⟩
      | true =>
        obtain ⟨l, hl⟩ := ih (execStep env k p tp (pushCall (advance env st) tc) tc)
        refine ⟨roundResponse env st :: l, ?_⟩
        rw [generateLoop_succ_auto h, hl]
        simp [execStep, advance, pushCall]

theorem generateLoop_prompts_prefix (env : Env) (a k : Bool) (p tp : String) :
    ∀ fuel st, ∃ l, (generateLoop env a k p tp fuel st).prompts = st.prompts ++ l := by
  intro fuel
  induction fuel with
  | zero =>
    intro st
    exact ⟨[], by simp [generateLoop_zero, finishRun]⟩
  | succ n ih =>
    intro st
    rcases h : (roundParse env st).toolCall with _ | tc
    · exact ⟨[st.fullPrompt], by rw [generateLoop_succ_none h]; simp [finishRun, advance]⟩
    · cases a with
      | false =>
        exact ⟨[st.fullPrompt],
          by rw [generateLoop_succ_manual h]; simp [finishRun, advance, pushCall]⟩
      | true =>
        obtain ⟨l, hl⟩ := ih (execStep env k p tp (pushCall (advance env st) tc) tc)
        refine ⟨st.fullPrompt :: l, ?_⟩
        rw [generateLoop_succ_auto h, hl]
        simp [execStep, advance, pushCall]

theorem generateLoop_toolResults_prefix (env : Env) (k : Bool) (p tp : String) :
    ∀ fuel st, ∃ l,
      (generateLoop env true k p tp fuel st).result.toolResults = st.toolResults ++ l := by
  intro fuel
  induction fuel with
  | zero =>
    intro st
    exact ⟨[], by simp [generateLoop_zero, finishRun]⟩
  | succ n ih =>
    intro st
    rcases h : (roundParse env st).toolCall with _ | tc
    · exact ⟨[], by rw [generateLoop_succ_none h]; simp [finishRun, advance]⟩
    · obtain ⟨l, hl⟩ := ih (execStep env k p tp (pushCall (advance env st) tc) tc)
      refine ⟨executeTool env.registry tc :: l, ?_⟩
      rw [generateLoop_succ_auto h, hl]
      simp [execStep, advance, pushCall]

theorem generateLoop_responses_head (env : Env) (a k : Bool) (p tp : String)
    (fuel : Nat) (st : LoopState) :
    ∃ l, (generateLoop env a k p tp (fuel + 1) st).responses =
      st.responses ++ roundResponse env st :: l := by
  rcases h : (roundParse env st).toolCall with _ | tc
  · exact ⟨[], by rw [generateLoop_succ_none h]; simp [finishRun, advance]⟩
  · cases a with
    | false =>
      exact ⟨[], by rw [generateLoop_succ_manual h]; simp [finishRun, advance, pushCall]⟩
    | true =>
      obtain ⟨l, hl⟩ := generateLoop_responses_prefix env true k p tp fuel
        (execStep env k p tp (pushCall (advance env st) tc) tc)
      refine ⟨l, ?_⟩
      rw [generateLoop_succ_auto h, hl]
      simp [execStep, advance, pushCall]

theorem generateLoop_prompts_head (env : Env) (a k : Bool) (p tp : String)
    (fuel : Nat) (st : LoopState) :
    ∃ l, (generateLoop env a k p tp (fuel + 1) st).prompts =
      st.prompts ++ st.fullPrompt :: l := by
  rcases h : (roundParse env st).toolCall with _ | tc
  · exact ⟨[], by rw [generateLoop_succ_none h]; simp [finishRun, advance]⟩
  · cases a with
    | false =>
      exact ⟨[], by rw [generateLoop_succ_manual h]; simp [finishRun, advance, pushCall]⟩
    | true =>
      obtain ⟨l, hl⟩ := generateLoop_prompts_prefix env true k p tp fuel
        (execStep env k p tp (pushCall (advance env st) tc) tc)
      refine ⟨l, ?_⟩
      rw [generateLoop_succ_auto h, hl]
      simp [execStep, advance, pushCall]

theorem roundResponse_mem_responses (env : Env) (a k : Bool) (p tp : String)
    (fuel : Nat) (st : LoopState) :
    roundResponse env st ∈ (generateLoop env a k p tp (fuel + 1) st).responses := by
  obtain ⟨l, hl⟩ := generateLoop_responses_head env a k p tp fuel st
  rw [hl]
  simp

theorem generateLoop_exhaust (env : Env) (k : Bool) (p tp : String) :
    ∀ fuel st,
      (∀ r ∈ (generateLoop env true k p tp fuel st).responses,
        ((parseToolCallViaCpp env.native r).toolCall).isSome = true) →
      st.finalText = st.texts.getLastD "" →
      (generateLoop env true k p tp fuel st).genCalls = st.iterations + fuel ∧
      (generateLoop env true k p tp fuel st).result.isComplete = true ∧
      (generateLoop env true k p tp fuel st).texts.length = st.texts.length + fuel ∧
      (generateLoop env true k p tp fuel st).result.text =
        (generateLoop env true k p tp fuel st).texts.getLastD "" ∧
      (generateLoop env true k p tp fuel st).result.toolCalls.length =
        st.toolCalls.length + fuel ∧
      (generateLoop env true k p tp fuel st).result.toolResults.length =
        st.toolResults.length + fuel := by
  intro fuel
  induction fuel with
  | zero =>
    intro st _ hinv
    simp [generateLoop_zero, finishRun, hinv]
  | succ n ih =>
    intro st hres hinv
    have hmem := roundResponse_mem_responses env true k p tp n st
    have hsome := hres _ hmem
    rcases h : (roundParse env st).toolCall with _ | tc
    · rw [roundParse] at h
      rw [h] at hsome
      simp at hsome
    · rw [generateLoop_succ_auto h] at hres ⊢
      have hinvNext : (execStep env k p tp (pushCall (advance env st) tc) tc).finalText =
          (execStep env k p tp (pushCall (advance env st) tc) tc).texts.getLastD "" := by
        show (roundParse env st).text = (st.texts ++ [(roundParse env st).text]).getLastD ""
        rw [List.getLastD_concat]
      have hrec := ih (execStep env k p tp (pushCall (advance env st) tc) tc) hres hinvNext
      have hiter : (execStep env k p tp (pushCall (advance env st) tc) tc).iterations =
          st.iterations + 1 := rfl
      have htex : (execStep env k p tp (pushCall (advance env st) tc) tc).texts.length =
          st.texts.length + 1 := by
        show (st.texts ++ [(roundParse env st).text]).length = st.texts.length + 1
        simp
      have hcal : (execStep env k p tp (pushCall (advance env st) tc) tc).toolCalls.length =
          st.toolCalls.length + 1 := by
        show (st.toolCalls ++ [tc]).length = st.toolCalls.length + 1
        simp
      have hrsl : (execStep env k p tp (pushCall (advance env st) tc) tc).toolResults.length =
          st.toolResults.length + 1 := by
        show (st.toolResults ++ [executeTool env.registry tc]).length =
          st.toolResults.length + 1
        simp
      rw [hiter, htex, hcal, hrsl] at hrec
      refine ⟨by omega, hrec.2.1, by omega, hrec.2.2.2.1, by omega, by omega⟩

/-! ### Alignment of tool calls and results -/

/-- The i-th recorded result corresponds to the i-th recorded call: same
length, and pointwise equal `toolName` and `callId`. -/
def aligned (calls : List ToolCall) (results : List ToolResult) : Bool :=
  (calls.length == results.length) &&
    (calls.zip results).all
      (fun pr => (pr.2.toolName == pr.1.toolName) && (pr.2.callId == pr.1.callId))

theorem executeTool_toolName (registry : List RegisteredTool) (tc : ToolCall) :
    (executeTool registry tc).toolName = tc.toolName := by
  rcases hf : findTool registry tc.toolName with _ | t
  · simp [executeTool, hf]
  · rcases he : t.executor tc.arguments with e | v <;> simp [executeTool, hf, he]

theorem executeTool_callId (registry : List RegisteredTool) (tc : ToolCall) :
    (executeTool registry tc).callId = tc.callId := by
  rcases hf : findTool registry tc.toolName with _ | t
  · simp [executeTool, hf]
  · rcases he : t.executor tc.arguments with e | v <;> simp [executeTool, hf, he]

theorem aligned_append {calls : List ToolCall} {results : List ToolResult}
    (h : aligned calls results = true) (tc : ToolCall) (tr : ToolResult)
    (hn : tr.toolName = tc.toolName) (hi : tr.callId = tc.callId) :
    aligned (calls ++ [tc]) (results ++ [tr]) = true := by
  unfold aligned at h ⊢
  simp only [Bool.and_eq_true, beq_iff_eq] at h
  obtain ⟨hlen, hall⟩ := h
  simp only [Bool.and_eq_true, beq_iff_eq, List.length_append, List.zip_append hlen,
    List.all_append, hlen]
  refine ⟨rfl, hall, ?_⟩
  simp [hn, hi]

theorem generateLoop_aligned (env : Env) (a k : Bool) (p tp : String) :
    ∀ fuel st, aligned st.toolCalls st.toolResults = true →
      (generateLoop env a k p tp fuel st).result.isComplete = true →
      aligned (generateLoop env a k p tp fuel st).result.toolCalls
        (generateLoop env a k p tp fuel st).result.toolResults = true := by
  intro fuel
  induction fuel with
  | zero =>
    intro st hst _
    simpa [generateLoop_zero, finishRun] using hst
  | succ n ih =>
    intro st hst
    rcases h : (roundParse env st).toolCall with _ | tc
    · rw [generateLoop_succ_none h]
      intro _
      simpa [finishRun, advance] using hst
    · cases a with
      | false =>
        rw [generateLoop_succ_manual h]
        intro hcompl
        simp [finishRun] at hcompl
      | true =>
        rw [generateLoop_succ_auto h]
        intro hcompl
        have hstep : aligned (execStep env k p tp (pushCall (advance env st) tc) tc).toolCalls
            (execStep env k p tp (pushCall (advance env st) tc) tc).toolResults = true := by
          show aligned (st.toolCalls ++ [tc]) (st.toolResults ++ [executeTool env.registry tc]) = true
          exact aligned_append hst tc (executeTool env.registry tc)
            (executeTool_toolName env.registry tc) (executeTool_callId env.registry tc)
        exact ih _ hstep hcompl

/-! ### Claim theorems -/

/-- C1, amended: when `generateWithTools` is invoked with `maxToolCalls = 0`,
the `while (iterations < maxToolCalls)` loop performs zero generation
invocations and the function returns immediately with `text = ""`,
`toolCalls = []`, `toolResults = []`, `isComplete = true`; no tool call is
recorded and no executor invocation is performed. -/
theorem generateWithTools_maxToolCallsZero (env : Env) (prompt : String)
    (options : ToolCallingOptions) (h : options.maxToolCalls = some 0) :
    generateWithTools env prompt options =
      { result := { text := "", toolCalls := [], toolResults := [], isComplete := true }
        genCalls := 0
        execCalls := 0
        prompts := []
        responses := []
        texts := [] } := by
  unfold generateWithTools
  rw [h]
  rfl

/-- C1, witness for the amended theorem at a concrete input. -/
theorem generateWithTools_maxToolCallsZero_witness :
    ({ maxToolCalls := some 0 : ToolCallingOptions }).maxToolCalls = some 0 ∧
    generateWithTools envNoCall "hi" { maxToolCalls := some 0 } =
      { result := { text := "", toolCalls := [], toolResults := [], isComplete := true }
        genCalls := 0
        execCalls := 0
        prompts := []
        responses := []
        texts := [] } :=
  ⟨rfl, generateWithTools_maxToolCallsZero envNoCall "hi" { maxToolCalls := some 0 } rfl⟩

/-- C1, counterexample to the claim as stated: with `maxToolCalls = 0` and a
model/parser pair that finds a well-formed tool call in every output, the
loop performs zero generation calls (not exactly one) and records no call in
`toolCalls`. -/
theorem generateWithTools_maxToolCallsZero_cex :
    ((parseToolCallViaCpp envCall.native
        (envCall.gen 1 (initialFullPrompt envCall "What is the weather?"
          { maxToolCalls := some 0 }))).toolCall).isSome = true ∧
    (generateWithTools envCall "What is the weather?"
      { maxToolCalls := some 0 }).genCalls = 0 ∧
    (generateWithTools envCall "What is the weather?"
      { maxToolCalls := some 0 }).result.toolCalls = [] ∧
    ¬ ((generateWithTools envCall "What is the weather?"
      { maxToolCalls := some 0 }).genCalls = 1) := by
  refine ⟨rfl, rfl, rfl, ?_⟩
  decide

/-- C3: with `maxToolCalls ≥ 1` and a first generated output that contains
no tool call, the orchestration terminates after exactly one generation
round and returns `toolCalls = []`, `toolResults = []`, `isComplete = true`
with the parsed clean text as the final text. -/
theorem generateWithTools_firstRoundNoCall (env : Env) (prompt : String)
    (options : ToolCallingOptions)
    (hmax : 1 ≤ options.maxToolCalls.getD 5)
    (hfirst : (parseToolCallViaCpp env.native
      (env.gen 1 (initialFullPrompt env prompt options))).toolCall = none) :
    (generateWithTools env prompt options).genCalls = 1 ∧
    (generateWithTools env prompt options).result =
      { text := (parseToolCallViaCpp env.native
          (env.gen 1 (initialFullPrompt env prompt options))).text
        toolCalls := []
        toolResults := []
        isComplete := true } := by
  obtain ⟨m, hm⟩ : ∃ m, (options.maxToolCalls.getD 5).toNat = m + 1 := by
    refine ⟨(options.maxToolCalls.getD 5).toNat - 1, ?_⟩
    omega
  unfold generateWithTools
  rw [hm]
  have h0 : (roundParse env (initState env prompt options)).toolCall = none := hfirst
  rw [generateLoop_succ_none h0]
  exact ⟨rfl, rfl⟩

/-- C3, witness at a concrete input: offline native module, so the parse of
the single round finds no call. -/
theorem generateWithTools_firstRoundNoCall_witness :
    1 ≤ (({} : ToolCallingOptions).maxToolCalls.getD 5) ∧
    (parseToolCallViaCpp envNoCall.native
      (envNoCall.gen 1 (initialFullPrompt envNoCall "hi" {}))).toolCall = none ∧
    ((generateWithTools envNoCall "hi" {}).genCalls = 1 ∧
      (generateWithTools envNoCall "hi" {}).result =
        { text := (parseToolCallViaCpp envNoCall.native
            (envNoCall.gen 1 (initialFullPrompt envNoCall "hi" {}))).text
          toolCalls := []
          toolResults := []
          isComplete := true }) :=
  ⟨by decide, rfl, generateWithTools_firstRoundNoCall envNoCall "hi" {} (by decide) rfl⟩

/-- C4: with `autoExecute = false`, as soon as a generated output parses to
a tool call (only the first round can, since manual mode never loops) the
function returns immediately with that call surfaced in `toolCalls`,
`toolResults` empty and `isComplete = false`, without invoking any tool
executor and without any further generation round: exactly one generation
call occurred and `execCalls = 0`. -/
theorem generateWithTools_manualMode (env : Env) (prompt : String)
    (options : ToolCallingOptions) (tc : ToolCall)
    (hauto : options.autoExecute = some false)
    (hmax : 1 ≤ options.maxToolCalls.getD 5)
    (hfirst : (parseToolCallViaCpp env.native
      (env.gen 1 (initialFullPrompt env prompt options))).toolCall = some tc) :
    (generateWithTools env prompt options).execCalls = 0 ∧
    (generateWithTools env prompt options).genCalls = 1 ∧
    (generateWithTools env prompt options).result =
      { text := (parseToolCallViaCpp env.native
          (env.gen 1 (initialFullPrompt env prompt options))).text
        toolCalls := [tc]
        toolResults := []
        isComplete := false } := by
  obtain ⟨m, hm⟩ : ∃ m, (options.maxToolCalls.getD 5).toNat = m + 1 := by
    refine ⟨(options.maxToolCalls.getD 5).toNat - 1, ?_⟩
    omega
  unfold generateWithTools
  rw [hauto]
  simp only [Option.getD_some]
  rw [hm]
  have h0 : (roundParse env (initState env prompt options)).toolCall = some tc := hfirst
  rw [generateLoop_succ_manual h0]
  exact ⟨rfl, rfl, rfl⟩

/-- C4, witness at a concrete input: a model that emits a call in round
one, run in manual mode — the call is surfaced with `isComplete = false`. -/
theorem generateWithTools_manualMode_witness :
    ({ autoExecute := some false : ToolCallingOptions }).autoExecute = some false ∧
    1 ≤ (({ autoExecute := some false : ToolCallingOptions }).maxToolCalls.getD 5) ∧
    (parseToolCallViaCpp envCall.native
      (envCall.gen 1 (initialFullPrompt envCall "p"
        { autoExecute := some false }))).toolCall = some weatherCall ∧
    ((generateWithTools envCall "p" { autoExecute := some false }).execCalls = 0 ∧
      (generateWithTools envCall "p" { autoExecute := some false }).genCalls = 1 ∧
      (generateWithTools envCall "p" { autoExecute := some false }).result =
        { text := (parseToolCallViaCpp envCall.native
            (envCall.gen 1 (initialFullPrompt envCall "p"
              { autoExecute := some false }))).text
          toolCalls := [weatherCall]
          toolResults := []
          isComplete := false }) :=
  ⟨rfl, by decide, by decide,
    generateWithTools_manualMode envCall "p" { autoExecute := some false } weatherCall
      rfl (by decide) (by decide)⟩

/-- C7: the parse step is total (no exception reaches the caller), and on
any parse failure — native module unavailable, native parse throw,
unparseable parse-result JSON, or unparseable string `argumentsJson` — it
returns no call with the clean text equal to the raw input unchanged. -/
theorem parseToolCallViaCpp_fallback (env : NativeEnv) (s : String)
    (h : env.available = false ∨
      (∃ e, env.parseToolCallFromOutput s = Except.error e) ∨
      (∃ r e, env.parseToolCallFromOutput s = Except.ok r ∧
        env.decodeParsePayload r = Except.error e) ∨
      (∃ r payload e, env.parseToolCallFromOutput s = Except.ok r ∧
        env.decodeParsePayload r = Except.ok payload ∧
        payload.hasToolCall = true ∧
        parseToolCallArgs env payload = Except.error e)) :
    parseToolCallViaCpp env s = { text := s, toolCall := none } := by
  unfold parseToolCallViaCpp
  rcases h with h | ⟨e, he⟩ | ⟨r, e, hr, he⟩ | ⟨r, payload, e, hr, hp, hh, ha⟩
  · simp [h]
  · by_cases hav : env.available = false
    · simp [hav]
    · simp [hav, he]
  · by_cases hav : env.available = false
    · simp [hav]
    · simp [hav, hr, he]
  · by_cases hav : env.available = false
    · simp [hav]
    · simp [hav, hr, hp, hh, ha]

/-- C7, witness at a concrete input: native module unavailable. -/
theorem parseToolCallViaCpp_fallback_witness :
    offlineNative.available = false ∧
    parseToolCallViaCpp offlineNative "hi" = { text := "hi", toolCall := none } :=
  ⟨rfl, parseToolCallViaCpp_fallback offlineNative "hi" (Or.inl rfl)⟩

/-- C8: with an empty tool list both `formatToolsForPrompt` and
`formatToolsForPromptAsync` return the empty string, so no tool-instruction
block is emitted. -/
theorem formatToolsForPrompt_empty (env : NativeEnv) (registry : List RegisteredTool)
    (tools : Option (List ToolDefinition)) (format : Option String)
    (h : tools.getD (getRegisteredTools registry) = []) :
    formatToolsForPrompt env registry tools format = "" ∧
    formatToolsForPromptAsync env registry tools format = "" := by
  constructor <;> simp [formatToolsForPrompt, formatToolsForPromptAsync, h]

/-- C8, witness at a concrete input: an explicitly empty tool list. -/
theorem formatToolsForPrompt_empty_witness :
    (some ([] : List ToolDefinition)).getD (getRegisteredTools []) = [] ∧
    formatToolsForPrompt callNative [] (some []) none = "" ∧
    formatToolsForPromptAsync callNative [] (some []) none = "" :=
  ⟨rfl, (formatToolsForPrompt_empty callNative [] (some []) none rfl).1,
    (formatToolsForPrompt_empty callNative [] (some []) none rfl).2⟩

/-- C2: in a run with `autoExecute = true` in which every generation round's
output parses to a tool call, the loop performs exactly
`maxToolCalls.toNat` iterations, terminates, and returns
`isComplete = true` with the clean text last parsed (the default `""` when
no round ran); exhaustion is a normal terminal state. -/
theorem generateWithTools_exhaustion (env : Env) (prompt : String)
    (options : ToolCallingOptions) (n : Nat)
    (hauto : options.autoExecute.getD true = true)
    (hmax : (options.maxToolCalls.getD 5).toNat = n)
    (hcalls : ∀ r ∈ (generateWithTools env prompt options).responses,
      ((parseToolCallViaCpp env.native r).toolCall).isSome = true) :
    (generateWithTools env prompt options).genCalls = n ∧
    (generateWithTools env prompt options).result.isComplete = true ∧
    (generateWithTools env prompt options).texts.length = n ∧
    (generateWithTools env prompt options).result.text =
      (generateWithTools env prompt options).texts.getLastD "" ∧
    (generateWithTools env prompt options).result.toolCalls.length = n ∧
    (generateWithTools env prompt options).result.toolResults.length = n := by
  unfold generateWithTools at hcalls ⊢
  rw [hauto, hmax] at hcalls ⊢
  have hout := generateLoop_exhaust env (options.keepToolsAvailable.getD false) prompt
    (toolsPromptOf env options) n (initState env prompt options) hcalls rfl
  have hi : (initState env prompt options).iterations = 0 := rfl
  have ht : (initState env prompt options).texts.length = 0 := rfl
  have hc : (initState env prompt options).toolCalls.length = 0 := rfl
  have hr : (initState env prompt options).toolResults.length = 0 := rfl
  rw [hi, ht, hc, hr] at hout
  exact ⟨by omega, hout.2.1, by omega, hout.2.2.2.1, by omega, by omega⟩

/-- C2, witness at a concrete input: the model always emits a call and
`maxToolCalls = 2`, so the run performs exactly two rounds. -/
theorem generateWithTools_exhaustion_witness :
    (({ maxToolCalls := some 2 : ToolCallingOptions }).autoExecute.getD true = true) ∧
    ((({ maxToolCalls := some 2 : ToolCallingOptions }).maxToolCalls.getD 5).toNat = 2) ∧
    (∀ r ∈ (generateWithTools envCall "p" { maxToolCalls := some 2 }).responses,
      ((parseToolCallViaCpp envCall.native r).toolCall).isSome = true) ∧
    ((generateWithTools envCall "p" { maxToolCalls := some 2 }).genCalls = 2 ∧
      (generateWithTools envCall "p" { maxToolCalls := some 2 }).result.isComplete = true ∧
      (generateWithTools envCall "p" { maxToolCalls := some 2 }).texts.length = 2 ∧
      (generateWithTools envCall "p" { maxToolCalls := some 2 }).result.text =
        (generateWithTools envCall "p" { maxToolCalls := some 2 }).texts.getLastD "" ∧
      (generateWithTools envCall "p" { maxToolCalls := some 2 }).result.toolCalls.length = 2 ∧
      (generateWithTools envCall "p"
        { maxToolCalls := some 2 }).result.toolResults.length = 2) :=
  ⟨rfl, rfl, by decide,
    generateWithTools_exhaustion envCall "p" { maxToolCalls := some 2 } 2 rfl rfl (by decide)⟩

/-- C5: `executeTool` on a name absent from the registry returns a failed
`ToolResult` whose error message references the unknown name, built without
consulting any executor; and when this happens inside an auto-executing run
with fuel remaining, the loop records that failed result and performs a
further generation round rather than terminating abnormally. -/
theorem executeTool_unknownTool (registry : List RegisteredTool) (tc : ToolCall)
    (env : Env) (prompt : String) (options : ToolCallingOptions) (tc2 : ToolCall) :
    (findTool registry tc.toolName = none →
      executeTool registry tc =
        { toolName := tc.toolName
          success := false
          result := none
          error := some ("Unknown tool: " ++ tc.toolName)
          callId := tc.callId }) ∧
    (options.autoExecute.getD true = true →
      2 ≤ (options.maxToolCalls.getD 5).toNat →
      (parseToolCallViaCpp env.native
        (env.gen 1 (initialFullPrompt env prompt options))).toolCall = some tc2 →
      findTool env.registry tc2.toolName = none →
      (generateWithTools env prompt options).result.toolResults.head? =
        some { toolName := tc2.toolName
               success := false
               result := none
               error := some ("Unknown tool: " ++ tc2.toolName)
               callId := tc2.callId } ∧
      2 ≤ (generateWithTools env prompt options).genCalls) := by
  constructor
  · intro h
    simp [executeTool, h]
  · intro hauto hfuel hparse hfind
    obtain ⟨m, hm⟩ : ∃ m, (options.maxToolCalls.getD 5).toNat = (m + 1) + 1 := by
      refine ⟨(options.maxToolCalls.getD 5).toNat - 2, ?_⟩
      omega
    unfold generateWithTools
    rw [hauto, hm]
    have h0 : (roundParse env (initState env prompt options)).toolCall = some tc2 := hparse
    rw [generateLoop_succ_auto h0]
    have hexec : executeTool env.registry tc2 =
        { toolName := tc2.toolName
          success := false
          result := none
          error := some ("Unknown tool: " ++ tc2.toolName)
          callId := tc2.callId } := by
      simp [executeTool, hfind]
    constructor
    · obtain ⟨l, hl⟩ := generateLoop_toolResults_prefix env
        (options.keepToolsAvailable.getD false) prompt (toolsPromptOf env options) (m + 1)
        (execStep env (options.keepToolsAvailable.getD false) prompt
          (toolsPromptOf env options)
          (pushCall (advance env (initState env prompt options)) tc2) tc2)
      rw [hl]
      have hres : (execStep env (options.keepToolsAvailable.getD false) prompt
          (toolsPromptOf env options)
          (pushCall (advance env (initState env prompt options)) tc2) tc2).toolResults =
          [executeTool env.registry tc2] := rfl
      rw [hres, hexec]
      rfl
    · have hrec := generateLoop_genCalls_ge_one env true
        (options.keepToolsAvailable.getD false) prompt (toolsPromptOf env options) m
        (execStep env (options.keepToolsAvailable.getD false) prompt
          (toolsPromptOf env options)
          (pushCall (advance env (initState env prompt options)) tc2) tc2)
      have hiter : (execStep env (options.keepToolsAvailable.getD false) prompt
          (toolsPromptOf env options)
          (pushCall (advance env (initState env prompt options)) tc2) tc2).iterations =
          1 := rfl
      rw [hiter] at hrec
      exact hrec

/-- C5, witness at a concrete input: the model requests `get_weather` but
the registry is empty. -/
theorem executeTool_unknownTool_witness :
    findTool [] weatherCall.toolName = none ∧
    (({} : ToolCallingOptions).autoExecute.getD true = true) ∧
    2 ≤ ((({} : ToolCallingOptions).maxToolCalls.getD 5).toNat) ∧
    (parseToolCallViaCpp envCall.native
      (envCall.gen 1 (initialFullPrompt envCall "p" {}))).toolCall = some weatherCall ∧
    findTool envCall.registry weatherCall.toolName = none ∧
    executeTool [] weatherCall =
      { toolName := weatherCall.toolName
        success := false
        result := none
        error := some ("Unknown tool: " ++ weatherCall.toolName)
        callId := weatherCall.callId } ∧
    (generateWithTools envCall "p" {}).result.toolResults.head? =
      some { toolName := weatherCall.toolName
             success := false
             result := none
             error := some ("Unknown tool: " ++ weatherCall.toolName)
             callId := weatherCall.callId } ∧
    2 ≤ (generateWithTools envCall "p" {}).genCalls :=
  ⟨rfl, rfl, by decide, rfl, rfl,
    (executeTool_unknownTool [] weatherCall envCall "p" {} weatherCall).1 rfl,
    ((executeTool_unknownTool [] weatherCall envCall "p" {} weatherCall).2
      rfl (by decide) rfl rfl).1,
    ((executeTool_unknownTool [] weatherCall envCall "p" {} weatherCall).2
      rfl (by decide) rfl rfl).2⟩

/-- C6: a throwing executor is not propagated — `executeTool` returns a
failed `ToolResult` carrying the executor's message; and in an
auto-executing run the loop records that failed result, feeds it into the
follow-up prompt of the next round (built from the serialized error object),
and continues, structurally the same as for a successful result. -/
theorem executeTool_executorThrows (registry : List RegisteredTool) (tc : ToolCall)
    (rt : RegisteredTool) (msg : String) (env : Env) (prompt : String)
    (options : ToolCallingOptions) (tc2 : ToolCall) (rt2 : RegisteredTool)
    (msg2 : String) :
    (findTool registry tc.toolName = some rt →
      rt.executor tc.arguments = Except.error msg →
      executeTool registry tc =
        { toolName := tc.toolName
          success := false
          result := none
          error := some msg
          callId := tc.callId }) ∧
    (options.autoExecute.getD true = true →
      2 ≤ (options.maxToolCalls.getD 5).toNat →
      (parseToolCallViaCpp env.native
        (env.gen 1 (initialFullPrompt env prompt options))).toolCall = some tc2 →
      findTool env.registry tc2.toolName = some rt2 →
      rt2.executor tc2.arguments = Except.error msg2 →
      (generateWithTools env prompt options).result.toolResults.head? =
        some { toolName := tc2.toolName
               success := false
               result := none
               error := some msg2
               callId := tc2.callId } ∧
      (generateWithTools env prompt options).prompts[1]? =
        some (buildFollowupPromptViaCpp env.native prompt (toolsPromptOf env options)
          tc2.toolName (env.native.stringifyErrorObj (some msg2))
          (options.keepToolsAvailable.getD false)) ∧
      2 ≤ (generateWithTools env prompt options).genCalls) := by
  constructor
  · intro hf he
    simp [executeTool, hf, he]
  · intro hauto hfuel hparse hfind hthrow
    obtain ⟨m, hm⟩ : ∃ m, (options.maxToolCalls.getD 5).toNat = (m + 1) + 1 := by
      refine ⟨(options.maxToolCalls.getD 5).toNat - 2, ?_⟩
      omega
    unfold generateWithTools
    rw [hauto, hm]
    have h0 : (roundParse env (initState env prompt options)).toolCall = some tc2 := hparse
    rw [generateLoop_succ_auto h0]
    have hexec : executeTool env.registry tc2 =
        { toolName := tc2.toolName
          success := false
          result := none
          error := some msg2
          callId := tc2.callId } := by
      simp [executeTool, hfind, hthrow]
    refine ⟨?_, ?_, ?_⟩
    · obtain ⟨l, hl⟩ := generateLoop_toolResults_prefix env
        (options.keepToolsAvailable.getD false) prompt (toolsPromptOf env options) (m + 1)
        (execStep env (options.keepToolsAvailable.getD false) prompt
          (toolsPromptOf env options)
          (pushCall (advance env (initState env prompt options)) tc2) tc2)
      rw [hl]
      have hres : (execStep env (options.keepToolsAvailable.getD false) prompt
          (toolsPromptOf env options)
          (pushCall (advance env (initState env prompt options)) tc2) tc2).toolResults =
          [executeTool env.registry tc2] := rfl
      rw [hres, hexec]
      rfl
    · obtain ⟨l, hl⟩ := generateLoop_prompts_head env true
        (options.keepToolsAvailable.getD false) prompt (toolsPromptOf env options) m
        (execStep env (options.keepToolsAvailable.getD false) prompt
          (toolsPromptOf env options)
          (pushCall (advance env (initState env prompt options)) tc2) tc2)
      rw [hl]
      have hfp : (execStep env (options.keepToolsAvailable.getD false) prompt
          (toolsPromptOf env options)
          (pushCall (advance env (initState env prompt options)) tc2) tc2).fullPrompt =
          buildFollowupPromptViaCpp env.native prompt (toolsPromptOf env options)
            tc2.toolName
            (if (executeTool env.registry tc2).success
              then env.native.stringifyVal (executeTool env.registry tc2).result
              else env.native.stringifyErrorObj (executeTool env.registry tc2).error)
            (options.keepToolsAvailable.getD false) := rfl
      rw [hexec] at hfp
      simp only [Bool.false_eq_true, if_false] at hfp
      have hpr : (execStep env (options.keepToolsAvailable.getD false) prompt
          (toolsPromptOf env options)
          (pushCall (advance env (initState env prompt options)) tc2) tc2).prompts =
          [(initState env prompt options).fullPrompt] := rfl
      rw [hpr, hfp]
      simp
    · have hrec := generateLoop_genCalls_ge_one env true
        (options.keepToolsAvailable.getD false) prompt (toolsPromptOf env options) m
        (execStep env (options.keepToolsAvailable.getD false) prompt
          (toolsPromptOf env options)
          (pushCall (advance env (initState env prompt options)) tc2) tc2)
      have hiter : (execStep env (options.keepToolsAvailable.getD false) prompt
          (toolsPromptOf env options)
          (pushCall (advance env (initState env prompt options)) tc2) tc2).iterations =
          1 := rfl
      rw [hiter] at hrec
      exact hrec

/-- C6, witness at a concrete input: the model requests `get_weather` and
the registered executor throws `"boom"`. -/
theorem executeTool_executorThrows_witness :
    findTool [throwingWeatherTool] weatherCall.toolName = some throwingWeatherTool ∧
    throwingWeatherTool.executor weatherCall.arguments = Except.error "boom" ∧
    executeTool [throwingWeatherTool] weatherCall =
      { toolName := weatherCall.toolName
        success := false
        result := none
        error := some "boom"
        callId := weatherCall.callId } ∧
    (generateWithTools envThrow "p" {}).result.toolResults.head? =
      some { toolName := weatherCall.toolName
             success := false
             result := none
             error := some "boom"
             callId := weatherCall.callId } ∧
    (generateWithTools envThrow "p" {}).prompts[1]? =
      some (buildFollowupPromptViaCpp envThrow.native "p" (toolsPromptOf envThrow {})
        weatherCall.toolName (envThrow.native.stringifyErrorObj (some "boom"))
        (({} : ToolCallingOptions).keepToolsAvailable.getD false)) ∧
    2 ≤ (generateWithTools envThrow "p" {}).genCalls :=
  ⟨rfl, rfl,
    (executeTool_executorThrows [throwingWeatherTool] weatherCall throwingWeatherTool
      "boom" envThrow "p" {} weatherCall throwingWeatherTool "boom").1 rfl rfl,
    ((executeTool_executorThrows [throwingWeatherTool] weatherCall throwingWeatherTool
      "boom" envThrow "p" {} weatherCall throwingWeatherTool "boom").2
        rfl (by decide) rfl rfl rfl).1,
    ((executeTool_executorThrows [throwingWeatherTool] weatherCall throwingWeatherTool
      "boom" envThrow "p" {} weatherCall throwingWeatherTool "boom").2
        rfl (by decide) rfl rfl rfl).2.1,
    ((executeTool_executorThrows [throwingWeatherTool] weatherCall throwingWeatherTool
      "boom" envThrow "p" {} weatherCall throwingWeatherTool "boom").2
        rfl (by decide) rfl rfl rfl).2.2⟩

/-- C9: every result returned with `isComplete = true` has `toolCalls` and
`toolResults` of equal length, with the i-th result's `toolName` and
`callId` equal to the i-th call's — each recorded call was executed exactly
once, in order. -/
theorem generateWithTools_alignment (env : Env) (prompt : String)
    (options : ToolCallingOptions)
    (h : (generateWithTools env prompt options).result.isComplete = true) :
    aligned (generateWithTools env prompt options).result.toolCalls
      (generateWithTools env prompt options).result.toolResults = true := by
  unfold generateWithTools at h ⊢
  exact generateLoop_aligned env (options.autoExecute.getD true)
    (options.keepToolsAvailable.getD false) prompt (toolsPromptOf env options)
    ((options.maxToolCalls.getD 5).toNat) (initState env prompt options) rfl h

/-- C9, witness at a concrete input: a completed two-round run with two
calls and two results. -/
theorem generateWithTools_alignment_witness :
    (generateWithTools envThrow "p" { maxToolCalls := some 2 }).result.isComplete = true ∧
    aligned (generateWithTools envThrow "p" { maxToolCalls := some 2 }).result.toolCalls
      (generateWithTools envThrow "p" { maxToolCalls := some 2 }).result.toolResults =
      true :=
  ⟨by decide,
    generateWithTools_alignment envThrow "p" { maxToolCalls := some 2 } (by decide)⟩

/-- C10: `continueWithToolResult` restarts `generateWithTools` on the
continuation prompt with `maxToolCalls` one less than the caller-supplied
value (default 5, hence 4); in particular resuming with a caller value of at
most 1 performs no generation round at all and returns `text = ""`,
`toolCalls = []`, `toolResults = []`, `isComplete = true`. -/
theorem continueWithToolResult_decrementsMax (env : Env) (previousPrompt : String)
    (toolCall : ToolCall) (toolResult : ToolResult) (options : ToolCallingOptions) :
    continueWithToolResult env previousPrompt toolCall toolResult options =
      generateWithTools env
        (previousPrompt ++ "\n\nTool Result for " ++ toolCall.toolName ++ ": " ++
          (if toolResult.success then env.native.stringifyVal toolResult.result
           else "Error: " ++ jsTemplate toolResult.error) ++
          "\n\nBased on the tool result, please provide your response:")
        { options with maxToolCalls := some (options.maxToolCalls.getD 5 - 1) } ∧
    (options.maxToolCalls.getD 5 ≤ 1 →
      continueWithToolResult env previousPrompt toolCall toolResult options =
        { result := { text := "", toolCalls := [], toolResults := [], isComplete := true }
          genCalls := 0
          execCalls := 0
          prompts := []
          responses := []
          texts := [] }) := by
  constructor
  · rfl
  · intro h
    have hz : (options.maxToolCalls.getD 5 - 1).toNat = 0 := by omega
    have hz2 : ((({ options with
        maxToolCalls := some (options.maxToolCalls.getD 5 - 1) } :
          ToolCallingOptions)).maxToolCalls.getD 5).toNat = 0 := hz
    unfold continueWithToolResult generateWithTools
    rw [hz2, generateLoop_zero]
    rfl

/-- C10, witness at a concrete input: resuming with `maxToolCalls = 1`
performs no generation round. -/
theorem continueWithToolResult_decrementsMax_witness :
    (({ maxToolCalls := some 1 : ToolCallingOptions }).maxToolCalls.getD 5 ≤ 1) ∧
    continueWithToolResult envCall "p" weatherCall
      { toolName := "get_weather", success := false, error := some "x", callId := "call_1" }
      { maxToolCalls := some 1 } =
      { result := { text := "", toolCalls := [], toolResults := [], isComplete := true }
        genCalls := 0
        execCalls := 0
        prompts := []
        responses := []
        texts := [] } :=
  ⟨by decide,
    (continueWithToolResult_decrementsMax envCall "p" weatherCall
      { toolName := "get_weather", success := false, error := some "x", callId := "call_1" }
      { maxToolCalls := some 1 }).2 (by decide)⟩

end ToolCalling
end RunAnywhere
